import Mathlib

/-!
Verification development for the banking withdrawal core
(`banking/types.py`, `banking/banking.py`).

Embedding choices:
* Python `Decimal` balances/amounts are embedded as `ℚ`: all monetary
  arithmetic in the source is exact decimal arithmetic (subtraction and
  comparisons with no rounding), which `ℚ` models exactly.
* Python `datetime` values are opaque to the core (copied around, never
  inspected), so they are embedded as an opaque wrapper `Datetime`.
* The in-place mutation `account.balance = new_balance` is embedded by
  having `process_withdrawal` return the (possibly updated) account next
  to its `Union[WithdrawalResult, WithdrawalError]` value.
* `str(uuid.uuid4())`, the externally generated fresh transaction id, is
  embedded as the explicit argument `freshId`.
* The `code` field of `WithdrawalError` is a string, as at Python runtime;
  the `Literal[...]` annotation of the source is recovered as the proved
  property that every returned code lies in `validErrorCodes`.
-/

/-- `AccountOwner` from `banking/types.py`. -/
structure AccountOwner where
  id : String
  first_name : String
  last_name : String
deriving DecidableEq, Repr

/-- `BankAccount` from `banking/types.py`; `balance : Decimal` is embedded as `ℚ`. -/
structure BankAccount where
  id : String
  balance : ℚ
  currency : String
  owner : AccountOwner
deriving DecidableEq, Repr

/-- Opaque embedding of Python `datetime`: the core never inspects timestamps. -/
structure Datetime where
  ticks : Int
deriving DecidableEq, Repr

/-- `WithdrawalRequest` from `banking/types.py`. -/
structure WithdrawalRequest where
  account_id : String
  amount : ℚ
  currency : String
  timestamp : Datetime
deriving DecidableEq, Repr

/-- `Transaction` from `banking/types.py`. -/
structure Transaction where
  id : String
  amount : ℚ
  currency : String
  timestamp : Datetime
  remaining_balance : ℚ
deriving DecidableEq, Repr

/-- `WithdrawalResult` from `banking/types.py`. -/
structure WithdrawalResult where
  success : Bool
  message : Option String := none
  transaction : Option Transaction := none
deriving DecidableEq, Repr

/-- `WithdrawalError` from `banking/types.py`; `code` is a plain string at runtime. -/
structure WithdrawalError where
  code : String
  message : String
deriving DecidableEq, Repr

/-- The closed enumeration of error codes allowed by the `Literal` type of
`WithdrawalError.code` in `banking/types.py`. -/
def validErrorCodes : List String :=
  ["INSUFFICIENT_FUNDS", "INVALID_AMOUNT", "ACCOUNT_NOT_FOUND"]

/-- `create_account` from `banking/banking.py`: validates the proposed
account's balance and returns the account unchanged when valid. -/
def create_account (account : BankAccount) : BankAccount ⊕ WithdrawalError :=
  if account.balance < 0 then
    Sum.inr { code := "INVALID_AMOUNT", message := "Account balance cannot be negative" }
  else if account.balance = 0 then
    Sum.inr { code := "INVALID_AMOUNT", message := "Initial account balance must be positive" }
  else
    Sum.inl account

/-- The interpolated message of the currency-mismatch rejection, from the
f-string in `banking/banking.py`. -/
def currencyMismatchMessage (accountCurrency withdrawalCurrency : String) : String :=
  "Currency mismatch: account is " ++ accountCurrency ++ ", withdrawal is " ++ withdrawalCurrency

/-- The interpolated message of the insufficient-funds rejection, from the
f-string in `banking/banking.py` (decimal values rendered by `toString`). -/
def insufficientFundsMessage (balance amount : ℚ) : String :=
  "Insufficient funds: balance " ++ toString balance ++ ", withdrawal " ++ toString amount

/-- `process_withdrawal` from `banking/banking.py`.  `freshId` stands for the
externally generated `str(uuid.uuid4())`.  The first component of the result
is the account after the call (the source mutates it in place on success). -/
def process_withdrawal (freshId : String) (account : BankAccount)
    (withdrawal : WithdrawalRequest) :
    BankAccount × (WithdrawalResult ⊕ WithdrawalError) :=
  if account.id ≠ withdrawal.account_id then
    (account, Sum.inr { code := "ACCOUNT_NOT_FOUND",
                        message := "Account ID does not match withdrawal request" })
  else if withdrawal.amount ≤ 0 then
    (account, Sum.inr { code := "INVALID_AMOUNT",
                        message := "Withdrawal amount must be positive" })
  else if account.currency ≠ withdrawal.currency then
    (account, Sum.inr { code := "INVALID_AMOUNT",
                        message := currencyMismatchMessage account.currency withdrawal.currency })
  else if withdrawal.amount > account.balance then
    (account, Sum.inr { code := "INSUFFICIENT_FUNDS",
                        message := insufficientFundsMessage account.balance withdrawal.amount })
  else
    let new_balance := account.balance - withdrawal.amount
    let transaction : Transaction :=
      { id := freshId
        amount := withdrawal.amount
        currency := withdrawal.currency
        timestamp := withdrawal.timestamp
        remaining_balance := new_balance }
    ({ account with balance := new_balance },
     Sum.inl { success := true
               message := some "Withdrawal processed successfully"
               transaction := some transaction })

/-- The `WithdrawalResult` produced by a successful call, as a function of the
fresh id, the account and the request (read off the commit branch). -/
def successResult (freshId : String) (account : BankAccount)
    (withdrawal : WithdrawalRequest) : WithdrawalResult :=
  { success := true
    message := some "Withdrawal processed successfully"
    transaction := some
      { id := freshId
        amount := withdrawal.amount
        currency := withdrawal.currency
        timestamp := withdrawal.timestamp
        remaining_balance := account.balance - withdrawal.amount } }

/-- A sample valid account used to instantiate the universally quantified
theorems at concrete inputs. -/
def sampleAccount : BankAccount :=
  { id := "ACC-1", balance := 100, currency := "USD"
    owner := { id := "OWN-1", first_name := "Ada", last_name := "Lovelace" } }

/-- A sample withdrawal request that satisfies every check against
`sampleAccount`. -/
def sampleRequest : WithdrawalRequest :=
  { account_id := "ACC-1", amount := 30, currency := "USD", timestamp := ⟨0⟩ }

/-- A request whose account id does not match `sampleAccount`. -/
def mismatchedRequest : WithdrawalRequest :=
  { account_id := "ACC-OTHER", amount := 30, currency := "USD", timestamp := ⟨0⟩ }

/-- A request that drains `sampleAccount` exactly: its amount equals the
account's balance. -/
def exactBalanceRequest : WithdrawalRequest :=
  { account_id := "ACC-1", amount := 100, currency := "USD", timestamp := ⟨7⟩ }

/-- An account with a negative balance (never passed the factory). -/
def negativeAccount : BankAccount :=
  { id := "ACC-NEG", balance := -5, currency := "USD"
    owner := { id := "OWN-2", first_name := "Bea", last_name := "N" } }

/-- An account with a positive balance but degenerate other fields: empty id,
empty owner strings and a currency that is not a 3-letter code. -/
def oddAccount : BankAccount :=
  { id := "", balance := 5 / 2, currency := "not-a-currency-code"
    owner := { id := "", first_name := "", last_name := "" } }

/-! Branch equations of `process_withdrawal`, shared by the claim theorems. -/

/-- Identity-check branch: mismatching ids yield `ACCOUNT_NOT_FOUND`. -/
lemma pw_id_mismatch (freshId : String) (account : BankAccount)
    (withdrawal : WithdrawalRequest) (h1 : account.id ≠ withdrawal.account_id) :
    process_withdrawal freshId account withdrawal =
      (account, Sum.inr { code := "ACCOUNT_NOT_FOUND"
                          message := "Account ID does not match withdrawal request" }) := by
  simp [process_withdrawal, h1]

/-- Amount-positivity branch: a nonpositive amount yields `INVALID_AMOUNT`. -/
lemma pw_nonpositive (freshId : String) (account : BankAccount)
    (withdrawal : WithdrawalRequest) (h1 : account.id = withdrawal.account_id)
    (h2 : withdrawal.amount ≤ 0) :
    process_withdrawal freshId account withdrawal =
      (account, Sum.inr { code := "INVALID_AMOUNT"
                          message := "Withdrawal amount must be positive" }) := by
  simp [process_withdrawal, h1, h2]

/-- Currency-check branch: mismatching currencies yield `INVALID_AMOUNT` with
the interpolated message. -/
lemma pw_currency_mismatch (freshId : String) (account : BankAccount)
    (withdrawal : WithdrawalRequest) (h1 : account.id = withdrawal.account_id)
    (h2 : 0 < withdrawal.amount) (h3 : account.currency ≠ withdrawal.currency) :
    process_withdrawal freshId account withdrawal =
      (account, Sum.inr { code := "INVALID_AMOUNT"
                          message := currencyMismatchMessage account.currency
                            withdrawal.currency }) := by
  simp [process_withdrawal, h1, h3, not_le.mpr h2]

/-- Funds-check branch: an amount above the balance yields
`INSUFFICIENT_FUNDS` with the interpolated message. -/
lemma pw_insufficient (freshId : String) (account : BankAccount)
    (withdrawal : WithdrawalRequest) (h1 : account.id = withdrawal.account_id)
    (h2 : 0 < withdrawal.amount) (h3 : account.currency = withdrawal.currency)
    (h4 : account.balance < withdrawal.amount) :
    process_withdrawal freshId account withdrawal =
      (account, Sum.inr { code := "INSUFFICIENT_FUNDS"
                          message := insufficientFundsMessage account.balance
                            withdrawal.amount }) := by
  simp [process_withdrawal, h1, h3, h4, not_le.mpr h2]

/-- Commit branch: when every check passes, the account is debited and the
success result is returned. -/
lemma pw_success (freshId : String) (account : BankAccount)
    (withdrawal : WithdrawalRequest) (h1 : account.id = withdrawal.account_id)
    (h2 : 0 < withdrawal.amount) (h3 : account.currency = withdrawal.currency)
    (h4 : withdrawal.amount ≤ account.balance) :
    process_withdrawal freshId account withdrawal =
      ({ account with balance := account.balance - withdrawal.amount },
       Sum.inl (successResult freshId account withdrawal)) := by
  simp [process_withdrawal, successResult, h1, h3, not_lt.mpr h4, not_le.mpr h2]

/-- Inversion: a call that returned `Sum.inl` passed all four checks and
produced exactly the commit branch's outputs. -/
lemma pw_inl_inv (freshId : String) (account : BankAccount)
    (withdrawal : WithdrawalRequest) (account' : BankAccount) (r : WithdrawalResult)
    (h : process_withdrawal freshId account withdrawal = (account', Sum.inl r)) :
    account.id = withdrawal.account_id ∧ 0 < withdrawal.amount ∧
    account.currency = withdrawal.currency ∧ withdrawal.amount ≤ account.balance ∧
    account' = { account with balance := account.balance - withdrawal.amount } ∧
    r = successResult freshId account withdrawal := by
  by_cases h1 : account.id = withdrawal.account_id
  · by_cases h2 : withdrawal.amount ≤ 0
    · rw [pw_nonpositive freshId account withdrawal h1 h2] at h
      simp at h
    · by_cases h3 : account.currency = withdrawal.currency
      · by_cases h4 : withdrawal.amount ≤ account.balance
        · rw [pw_success freshId account withdrawal h1 (not_le.mp h2) h3 h4] at h
          injection h with ha hr
          injection hr with hr
          exact ⟨h1, not_le.mp h2, h3, h4, ha.symm, hr.symm⟩
        · rw [pw_insufficient freshId account withdrawal h1 (not_le.mp h2) h3
            (not_le.mp h4)] at h
          simp at h
      · rw [pw_currency_mismatch freshId account withdrawal h1 (not_le.mp h2) h3] at h
        simp at h
  · rw [pw_id_mismatch freshId account withdrawal h1] at h
    simp at h

/-- The currency-mismatch message is never the empty string. -/
lemma currencyMismatchMessage_ne_empty (ac wc : String) :
    currencyMismatchMessage ac wc ≠ "" := by
  intro hc
  have h2 := congrArg String.length hc
  simp [currencyMismatchMessage, String.length_append] at h2
  exact absurd h2.1.1.1 (by decide)

/-- The insufficient-funds message is never the empty string. -/
lemma insufficientFundsMessage_ne_empty (balance amount : ℚ) :
    insufficientFundsMessage balance amount ≠ "" := by
  intro hc
  have h2 := congrArg String.length hc
  simp [insufficientFundsMessage, String.length_append] at h2
  exact absurd h2.1.1.1 (by decide)

/-- C1: when the account id matches, the amount is positive, the currencies
match and the amount does not exceed the balance, `process_withdrawal`
succeeds: it returns `success = true` with the fixed message, a transaction
carrying the request's amount, currency and timestamp with
`remaining_balance = balance - amount`, and the account's balance is updated
to that same value. -/
theorem process_withdrawal_success_spec (freshId : String) (account : BankAccount)
    (withdrawal : WithdrawalRequest)
    (hid : account.id = withdrawal.account_id)
    (hpos : 0 < withdrawal.amount)
    (hcur : account.currency = withdrawal.currency)
    (hfunds : withdrawal.amount ≤ account.balance) :
    process_withdrawal freshId account withdrawal =
      ({ account with balance := account.balance - withdrawal.amount },
       Sum.inl { success := true
                 message := some "Withdrawal processed successfully"
                 transaction := some
                   { id := freshId
                     amount := withdrawal.amount
                     currency := withdrawal.currency
                     timestamp := withdrawal.timestamp
                     remaining_balance := account.balance - withdrawal.amount } }) :=
  pw_success freshId account withdrawal hid hpos hcur hfunds

/-- C1 witness: the success theorem instantiated at `sampleAccount` and
`sampleRequest`. -/
theorem process_withdrawal_success_spec_witness :
    sampleAccount.id = sampleRequest.account_id ∧
    0 < sampleRequest.amount ∧
    sampleAccount.currency = sampleRequest.currency ∧
    sampleRequest.amount ≤ sampleAccount.balance ∧
    process_withdrawal "TX-1" sampleAccount sampleRequest =
      ({ sampleAccount with balance := sampleAccount.balance - sampleRequest.amount },
       Sum.inl { success := true
                 message := some "Withdrawal processed successfully"
                 transaction := some
                   { id := "TX-1"
                     amount := sampleRequest.amount
                     currency := sampleRequest.currency
                     timestamp := sampleRequest.timestamp
                     remaining_balance := sampleAccount.balance - sampleRequest.amount } }) :=
  ⟨rfl, by norm_num [sampleRequest], rfl, by norm_num [sampleRequest, sampleAccount],
   process_withdrawal_success_spec "TX-1" sampleAccount sampleRequest rfl
     (by norm_num [sampleRequest]) rfl (by norm_num [sampleRequest, sampleAccount])⟩

/-- C2: whenever `process_withdrawal` returns a `WithdrawalError` (any
rejection path), the account comes back completely unchanged — no partial
mutation. -/
theorem process_withdrawal_error_no_mutation (freshId : String) (account : BankAccount)
    (withdrawal : WithdrawalRequest) (e : WithdrawalError)
    (h : (process_withdrawal freshId account withdrawal).2 = Sum.inr e) :
    (process_withdrawal freshId account withdrawal).1 = account := by
  unfold process_withdrawal at h ⊢
  split_ifs at h ⊢ <;> simp_all

/-- C2 witness: the no-mutation theorem instantiated at a rejected
(id-mismatch) request against `sampleAccount`. -/
theorem process_withdrawal_error_no_mutation_witness :
    (process_withdrawal "TX-2" sampleAccount mismatchedRequest).2 =
      Sum.inr { code := "ACCOUNT_NOT_FOUND"
                message := "Account ID does not match withdrawal request" } ∧
    (process_withdrawal "TX-2" sampleAccount mismatchedRequest).1 = sampleAccount :=
  ⟨by decide, process_withdrawal_error_no_mutation "TX-2" sampleAccount mismatchedRequest
     { code := "ACCOUNT_NOT_FOUND"
       message := "Account ID does not match withdrawal request" } (by decide)⟩

/-- C3: the four checks run in the fixed order identity, amount positivity,
currency match, sufficient funds, and the first failing check determines the
returned error and message. -/
theorem process_withdrawal_error_precedence (freshId : String) (account : BankAccount)
    (withdrawal : WithdrawalRequest) :
    (account.id ≠ withdrawal.account_id →
       process_withdrawal freshId account withdrawal =
         (account, Sum.inr { code := "ACCOUNT_NOT_FOUND"
                             message := "Account ID does not match withdrawal request" })) ∧
    (account.id = withdrawal.account_id → withdrawal.amount ≤ 0 →
       process_withdrawal freshId account withdrawal =
         (account, Sum.inr { code := "INVALID_AMOUNT"
                             message := "Withdrawal amount must be positive" })) ∧
    (account.id = withdrawal.account_id → 0 < withdrawal.amount →
       account.currency ≠ withdrawal.currency →
       process_withdrawal freshId account withdrawal =
         (account, Sum.inr { code := "INVALID_AMOUNT"
                             message := currencyMismatchMessage account.currency
                               withdrawal.currency })) ∧
    (account.id = withdrawal.account_id → 0 < withdrawal.amount →
       account.currency = withdrawal.currency → account.balance < withdrawal.amount →
       process_withdrawal freshId account withdrawal =
         (account, Sum.inr { code := "INSUFFICIENT_FUNDS"
                             message := insufficientFundsMessage account.balance
                               withdrawal.amount })) :=
  ⟨fun h1 => pw_id_mismatch freshId account withdrawal h1,
   fun h1 h2 => pw_nonpositive freshId account withdrawal h1 h2,
   fun h1 h2 h3 => pw_currency_mismatch freshId account withdrawal h1 h2 h3,
   fun h1 h2 h3 h4 => pw_insufficient freshId account withdrawal h1 h2 h3 h4⟩

/-- C3 witness: the precedence theorem instantiated at an id-mismatch input
that also violates the funds rule, showing the identity error wins. -/
theorem process_withdrawal_error_precedence_witness :
    sampleAccount.id ≠ mismatchedRequest.account_id ∧
    process_withdrawal "TX-3" sampleAccount mismatchedRequest =
      (sampleAccount,
       Sum.inr { code := "ACCOUNT_NOT_FOUND"
                 message := "Account ID does not match withdrawal request" }) :=
  ⟨by decide,
   (process_withdrawal_error_precedence "TX-3" sampleAccount mismatchedRequest).1 (by decide)⟩

/-- C4: every successful withdrawal leaves the balance at exactly
`old_balance - amount`, which is nonnegative; in particular a request whose
amount equals the balance (with the other checks passing) succeeds and leaves
the balance exactly `0`. -/
theorem process_withdrawal_balance_invariant (freshId : String) (account : BankAccount)
    (withdrawal : WithdrawalRequest) :
    (∀ account' r, process_withdrawal freshId account withdrawal = (account', Sum.inl r) →
       account'.balance = account.balance - withdrawal.amount ∧ 0 ≤ account'.balance) ∧
    (account.id = withdrawal.account_id → account.currency = withdrawal.currency →
       withdrawal.amount = account.balance → 0 < withdrawal.amount →
       (process_withdrawal freshId account withdrawal).1.balance = 0 ∧
       (process_withdrawal freshId account withdrawal).2.isLeft) := by
  constructor
  · intro account' r h
    obtain ⟨-, -, -, h4, ha, -⟩ := pw_inl_inv freshId account withdrawal account' r h
    subst ha
    exact ⟨rfl, sub_nonneg.mpr h4⟩
  · intro h1 h3 hamt hpos
    rw [pw_success freshId account withdrawal h1 hpos h3 (le_of_eq hamt)]
    refine ⟨?_, rfl⟩
    show account.balance - withdrawal.amount = 0
    rw [hamt, sub_self]

/-- C4 witness: the balance invariant instantiated at the exact-drain request
against `sampleAccount`, yielding final balance `0`. -/
theorem process_withdrawal_balance_invariant_witness :
    sampleAccount.id = exactBalanceRequest.account_id ∧
    sampleAccount.currency = exactBalanceRequest.currency ∧
    exactBalanceRequest.amount = sampleAccount.balance ∧
    0 < exactBalanceRequest.amount ∧
    (process_withdrawal "TX-4" sampleAccount exactBalanceRequest).1.balance = 0 ∧
    (process_withdrawal "TX-4" sampleAccount exactBalanceRequest).2.isLeft :=
  ⟨rfl, rfl, by norm_num [exactBalanceRequest, sampleAccount],
   by norm_num [exactBalanceRequest],
   (process_withdrawal_balance_invariant "TX-4" sampleAccount exactBalanceRequest).2
     rfl rfl (by norm_num [exactBalanceRequest, sampleAccount])
     (by norm_num [exactBalanceRequest])⟩

/-- C5: `create_account` rejects a negative balance with the fixed
negative-balance message, rejects a zero balance with the fixed
must-be-positive message, and otherwise returns its input unchanged (identity
on the happy path); being a pure function of its argument, two calls on the
same input agree. -/
theorem create_account_spec (account : BankAccount) :
    (account.balance < 0 →
       create_account account =
         Sum.inr { code := "INVALID_AMOUNT"
                   message := "Account balance cannot be negative" }) ∧
    (account.balance = 0 →
       create_account account =
         Sum.inr { code := "INVALID_AMOUNT"
                   message := "Initial account balance must be positive" }) ∧
    (0 < account.balance → create_account account = Sum.inl account) := by
  refine ⟨fun h => ?_, fun h => ?_, fun h => ?_⟩
  · simp [create_account, h]
  · simp [create_account, h]
  · simp [create_account, not_lt.mpr h.le, h.ne']

/-- C5 witness: the factory spec instantiated at the valid `sampleAccount`,
returning it unchanged. -/
theorem create_account_spec_witness :
    0 < sampleAccount.balance ∧ create_account sampleAccount = Sum.inl sampleAccount :=
  ⟨by norm_num [sampleAccount],
   (create_account_spec sampleAccount).2.2 (by norm_num [sampleAccount])⟩

/-- C6: a successful withdrawal modifies only the balance field of the
account: id, currency and the owner (hence the owner's id, first name and
last name) are unchanged; the request value is passed immutably in this
embedding, so it is never modified. -/
theorem process_withdrawal_success_frame (freshId : String) (account : BankAccount)
    (withdrawal : WithdrawalRequest) (account' : BankAccount) (r : WithdrawalResult)
    (h : process_withdrawal freshId account withdrawal = (account', Sum.inl r)) :
    account'.id = account.id ∧ account'.currency = account.currency ∧
    account'.owner = account.owner ∧ account'.owner.id = account.owner.id ∧
    account'.owner.first_name = account.owner.first_name ∧
    account'.owner.last_name = account.owner.last_name := by
  obtain ⟨-, -, -, -, ha, -⟩ := pw_inl_inv freshId account withdrawal account' r h
  subst ha
  exact ⟨rfl, rfl, rfl, rfl, rfl, rfl⟩

/-- C6 witness: the frame theorem instantiated at `sampleAccount` and
`sampleRequest`. -/
theorem process_withdrawal_success_frame_witness :
    process_withdrawal "TX-5" sampleAccount sampleRequest =
      ({ sampleAccount with balance := sampleAccount.balance - sampleRequest.amount },
       Sum.inl (successResult "TX-5" sampleAccount sampleRequest)) ∧
    ({ sampleAccount with
        balance := sampleAccount.balance - sampleRequest.amount } : BankAccount).id =
      sampleAccount.id ∧
    ({ sampleAccount with
        balance := sampleAccount.balance - sampleRequest.amount } : BankAccount).currency =
      sampleAccount.currency ∧
    ({ sampleAccount with
        balance := sampleAccount.balance - sampleRequest.amount } : BankAccount).owner =
      sampleAccount.owner :=
  have h := pw_success "TX-5" sampleAccount sampleRequest rfl
    (by norm_num [sampleRequest]) rfl (by norm_num [sampleRequest, sampleAccount])
  have hf := process_withdrawal_success_frame "TX-5" sampleAccount sampleRequest
    { sampleAccount with balance := sampleAccount.balance - sampleRequest.amount }
    (successResult "TX-5" sampleAccount sampleRequest) h
  ⟨h, hf.1, hf.2.1, hf.2.2.1⟩

/-- C7: both operations are total functions returning plain values (the
embedding is a total Lean function, mirroring the raise-free source), and
every returned `WithdrawalError` carries a code from the closed
three-element enumeration together with a non-empty message. -/
theorem banking_errors_closed (freshId : String) (account : BankAccount)
    (withdrawal : WithdrawalRequest) :
    (∀ e, create_account account = Sum.inr e →
       e.code ∈ validErrorCodes ∧ e.message ≠ "") ∧
    (∀ e, (process_withdrawal freshId account withdrawal).2 = Sum.inr e →
       e.code ∈ validErrorCodes ∧ e.message ≠ "") := by
  constructor
  · intro e he
    unfold create_account at he
    split_ifs at he
    · injection he with he
      subst he
      exact ⟨by decide, by decide⟩
    · injection he with he
      subst he
      exact ⟨by decide, by decide⟩
  · intro e he
    unfold process_withdrawal at he
    split_ifs at he
    · injection he with he
      subst he
      exact ⟨by decide, by decide⟩
    · injection he with he
      subst he
      exact ⟨by decide, by decide⟩
    · injection he with he
      subst he
      exact ⟨by simp [validErrorCodes], currencyMismatchMessage_ne_empty _ _⟩
    · injection he with he
      subst he
      exact ⟨by simp [validErrorCodes], insufficientFundsMessage_ne_empty _ _⟩

/-- C7 witness: the closed-error theorem instantiated at the negative-balance
account, whose rejection carries code `INVALID_AMOUNT` and a non-empty
message. -/
theorem banking_errors_closed_witness :
    create_account negativeAccount =
      Sum.inr { code := "INVALID_AMOUNT"
                message := "Account balance cannot be negative" } ∧
    ("INVALID_AMOUNT" ∈ validErrorCodes ∧
      "Account balance cannot be negative" ≠ ("" : String)) :=
  ⟨by norm_num [create_account, negativeAccount],
   (banking_errors_closed "TX-7" negativeAccount sampleRequest).1
     { code := "INVALID_AMOUNT", message := "Account balance cannot be negative" }
     (by norm_num [create_account, negativeAccount])⟩

/-- C9: an account whose balance is strictly negative can never be withdrawn
from successfully: every request is rejected with some error, because any
request surviving the earlier checks has a positive amount exceeding the
negative balance. -/
theorem negative_balance_never_succeeds (freshId : String) (account : BankAccount)
    (withdrawal : WithdrawalRequest) (h : account.balance < 0) :
    ∃ e, (process_withdrawal freshId account withdrawal).2 = Sum.inr e := by
  by_cases h1 : account.id = withdrawal.account_id
  · by_cases h2 : withdrawal.amount ≤ 0
    · exact ⟨_, by rw [pw_nonpositive freshId account withdrawal h1 h2]⟩
    · by_cases h3 : account.currency = withdrawal.currency
      · have h4 : account.balance < withdrawal.amount := h.trans (not_le.mp h2)
        exact ⟨_, by rw [pw_insufficient freshId account withdrawal h1
          (not_le.mp h2) h3 h4]⟩
      · exact ⟨_, by rw [pw_currency_mismatch freshId account withdrawal h1
          (not_le.mp h2) h3]⟩
  · exact ⟨_, by rw [pw_id_mismatch freshId account withdrawal h1]⟩

/-- C9 witness: the theorem instantiated at the negative-balance account and
a request that passes the identity, positivity and currency checks. -/
theorem negative_balance_never_succeeds_witness :
    negativeAccount.balance < 0 ∧
    ∃ e, (process_withdrawal "TX-9" negativeAccount
      { account_id := "ACC-NEG", amount := 1, currency := "USD",
        timestamp := ⟨0⟩ }).2 = Sum.inr e :=
  ⟨by norm_num [negativeAccount],
   negative_balance_never_succeeds "TX-9" negativeAccount
     { account_id := "ACC-NEG", amount := 1, currency := "USD", timestamp := ⟨0⟩ }
     (by norm_num [negativeAccount])⟩

/-- C10: `create_account` inspects only the balance: any account with positive
balance is returned unchanged whatever its other fields hold, and two
accounts sharing a balance are treated identically (same acceptance, same
error value). -/
theorem create_account_balance_only (a b : BankAccount) :
    (0 < a.balance → create_account a = Sum.inl a) ∧
    (a.balance = b.balance →
       ((∃ a2, create_account a = Sum.inl a2) ↔ (∃ b2, create_account b = Sum.inl b2)) ∧
       (∀ e, create_account a = Sum.inr e ↔ create_account b = Sum.inr e)) := by
  constructor
  · intro h
    simp [create_account, not_lt.mpr h.le, h.ne']
  · intro hb
    unfold create_account
    rw [hb]
    split_ifs <;> simp

/-- C10 witness: the theorem instantiated at an account with empty id, empty
owner fields and a non-3-letter currency, which the factory still accepts
unchanged because its balance is positive. -/
theorem create_account_balance_only_witness :
    0 < oddAccount.balance ∧ create_account oddAccount = Sum.inl oddAccount :=
  ⟨by norm_num [oddAccount],
   (create_account_balance_only oddAccount sampleAccount).1 (by norm_num [oddAccount])⟩
